import Mathlib

/-!
# Verification of the school-infrastructure dashboard core

Shallow embedding of `src/app.py`: the derived-field computation in
`load_data`, the module-level sidebar filter application, the KPI and
aggregation layer, and the CSV export/reload round trip.

Cells of the pandas dataframe are modelled as `Option`-valued fields
(`none` is the `NaN` missing-value sentinel).  Pandas comparison
semantics are embedded faithfully: `NaN == v` is false, `NaN > 0` is
false, `Series.isin` never matches `NaN` against non-null options,
`.sum(axis=1)` skips `NaN` (treats it as 0), and `Series.mean()` of an
empty series is `NaN` (modelled as `none`).
-/

namespace SchoolDash

/-- A raw categorical cell value: the source columns hold either numeric
codes or strings. -/
inductive Val where
  | int : Int → Val
  | str : List Char → Val
deriving DecidableEq

/-- One row of the loaded dataframe: the raw columns of
`sample_school_data.csv` that `app.py` touches.  `none` models `NaN`. -/
structure Row where
  state : Option Val
  district : Option Val
  block : Option Val
  rural_urban : Option Int
  school_category : Option Val
  school_type : Option Val
  managment : Option Val
  resi_school : Option Int
  minority_school : Option Int
  lowclass : Option Int
  highclass : Option Int
  electricity_availability : Option Int
  internet : Option Int
  library_availability : Option Int
  playground_available : Option Int
  rain_water_harvesting : Option Int
  boundary_wall : Option Val
  availability_ramps : Option Int
  availability_of_handrails : Option Int
  spl_educator_yn : Option Int
  total_boys_func_toilet : Option Int
  total_girls_func_toilet : Option Int
  total_boys_toilet : Option Int
  total_girls_toilet : Option Int
  func_boys_cwsn_friendly : Option Int
  func_girls_cwsn_friendly : Option Int
  building_status : Option Val
  projector : Option Int
deriving DecidableEq

/-- `load_data` line 21: `.replace({2: 0, 3: 0})` applied to one cell of
the four facility columns. -/
def replaceNo (c : Option Int) : Option Int :=
  c.map (fun x => if x = 2 then 0 else if x = 3 then 0 else x)

/-- `load_data` lines 19-23: the `infra_score` column.  The pandas
`.sum(axis=1)` default `skipna=True` treats a `NaN` cell as 0. -/
def infra_score (r : Row) : Int :=
  (replaceNo r.electricity_availability).getD 0 +
  (replaceNo r.internet).getD 0 +
  (replaceNo r.library_availability).getD 0 +
  (replaceNo r.playground_available).getD 0

/-- Pandas addition of two series cells: `NaN` is absorbing. -/
def optAdd (a b : Option Int) : Option Int :=
  match a, b with
  | some x, some y => some (x + y)
  | _, _ => none

/-- `load_data` lines 26-29: the `toilet_functionality_ratio` column.
The denominator `(total_boys_toilet + total_girls_toilet).replace(0, np.nan)`
turns an exact-zero total into `NaN`, and a division with `NaN` on either
side is `NaN` (`none`). -/
def toilet_functionality (r : Row) : Option Rat :=
  match optAdd r.total_boys_func_toilet r.total_girls_func_toilet,
        optAdd r.total_boys_toilet r.total_girls_toilet with
  | some num, some den => if den = 0 then none else some ((num : Rat) / (den : Rat))
  | _, _ => none

/-- Pandas `series > 0` on one cell: `NaN > 0` is false. -/
def optPos (c : Option Int) : Bool :=
  match c with
  | some x => decide (0 < x)
  | none => false

/-- `load_data` lines 32-35: the boolean `cwsn_ready` column.
`NaN == 1` is false in pandas, so a missing `availability_ramps` yields
`false`. -/
def cwsn_ready (r : Row) : Bool :=
  (decide (r.availability_ramps = some 1)) &&
  (optPos r.func_boys_cwsn_friendly || optPos r.func_girls_cwsn_friendly)

/-- The sidebar filter state: one optional predicate per widget, in the
order the widgets are declared in `app.py`.  `none` models a Python
`None` (column absent / "All" chosen); `some []` models a multiselect
whose selection the user has cleared. -/
structure Filters where
  states : Option (List Val)
  districts : Option (List Val)
  blocks : Option (List Val)
  rural_urban : Option Int
  school_cat : Option (List Val)
  school_type : Option (List Val)
  management : Option (List Val)
  resi : Option Int
  minority : Option Int
  grade_range : Option (Int × Int)
  elec : Option Int
  internet : Option Int
  library : Option Int
  playground : Option Int
  rainwater : Option Int
  boundary_sel : Option (List Val)
  ramps : Option Int
  handrails : Option Int
  spl_edu : Option Int

/-- Python truthiness of an optional list (`if states:`): `None` and the
empty list are both falsy. -/
def listTruthy : Option (List Val) → Bool
  | some (_ :: _) => true
  | _ => false

/-- Python truthiness of an optional integer (`if resi:`): `None` and
`0` are falsy. -/
def intTruthy : Option Int → Bool
  | some v => decide (v ≠ 0)
  | none => false

/-- Pandas `Series.isin(sel)` on one cell: a `NaN` cell matches nothing
(the option lists are built from `dropna().unique()`). -/
def cellIn (c : Option Val) (sel : List Val) : Bool :=
  match c with
  | some v => sel.contains v
  | none => false

/-- `app.py` lines 105-106: the grade-range mask
`(f["lowclass"] >= lo) & (f["highclass"] <= hi)`; a `NaN` comparison is
false. -/
def gradeOK (gr : Option (Int × Int)) (r : Row) : Bool :=
  match gr with
  | some (lo, hi) =>
      (match r.lowclass with | some x => decide (lo ≤ x) | none => false) &&
      (match r.highclass with | some x => decide (x ≤ hi) | none => false)
  | none => true

/-- One guarded filter step `if cond: f = f[mask]`. -/
def mfilter (b : Bool) (p : Row → Bool) (l : List Row) : List Row :=
  if b then l.filter p else l

/-- `app.py` lines 43 and 96-122: the module-level filter application,
one guarded selection per widget in source order.  Multiselect guards
use Python list truthiness (`if states:`), the selectbox guards for
location/residential/minority use integer truthiness, the grade slider
guard is `if grade_range:` (any pair is truthy), and the
infrastructure-toggle loop tests `if val is not None`. -/
def applyFilters (df : List Row) (F : Filters) : List Row :=
  df
  |> mfilter (listTruthy F.states) (fun r => cellIn r.state (F.states.getD []))
  |> mfilter (listTruthy F.districts) (fun r => cellIn r.district (F.districts.getD []))
  |> mfilter (listTruthy F.blocks) (fun r => cellIn r.block (F.blocks.getD []))
  |> mfilter (intTruthy F.rural_urban) (fun r => decide (r.rural_urban = F.rural_urban))
  |> mfilter (listTruthy F.school_cat) (fun r => cellIn r.school_category (F.school_cat.getD []))
  |> mfilter (listTruthy F.school_type) (fun r => cellIn r.school_type (F.school_type.getD []))
  |> mfilter (listTruthy F.management) (fun r => cellIn r.managment (F.management.getD []))
  |> mfilter (intTruthy F.resi) (fun r => decide (r.resi_school = F.resi))
  |> mfilter (intTruthy F.minority) (fun r => decide (r.minority_school = F.minority))
  |> mfilter F.grade_range.isSome (gradeOK F.grade_range)
  |> mfilter F.elec.isSome (fun r => decide (r.electricity_availability = F.elec))
  |> mfilter F.internet.isSome (fun r => decide (r.internet = F.internet))
  |> mfilter F.library.isSome (fun r => decide (r.library_availability = F.library))
  |> mfilter F.playground.isSome (fun r => decide (r.playground_available = F.playground))
  |> mfilter F.rainwater.isSome (fun r => decide (r.rain_water_harvesting = F.rainwater))
  |> mfilter F.ramps.isSome (fun r => decide (r.availability_ramps = F.ramps))
  |> mfilter F.handrails.isSome (fun r => decide (r.availability_of_handrails = F.handrails))
  |> mfilter F.spl_edu.isSome (fun r => decide (r.spl_educator_yn = F.spl_edu))
  |> mfilter (listTruthy F.boundary_sel) (fun r => cellIn r.boundary_wall (F.boundary_sel.getD []))

/-- The filter state with every predicate absent. -/
def absentFilters : Filters :=
  { states := none, districts := none, blocks := none, rural_urban := none,
    school_cat := none, school_type := none, management := none, resi := none,
    minority := none, grade_range := none, elec := none, internet := none,
    library := none, playground := none, rainwater := none, boundary_sel := none,
    ramps := none, handrails := none, spl_edu := none }

/-! ## Aggregation / metrics layer -/

/-- KPI card line 128: `len(f)`. -/
def totalSchools (f : List Row) : Nat := f.length

/-- KPI cards lines 129-133: `(f[col] == 1).mean() * 100`.  The mean of
an empty boolean series is `NaN` (`none`); a `NaN` cell compares unequal
to 1 and counts in the denominator. -/
def pctEq1 (g : Row → Option Int) (f : List Row) : Option Rat :=
  if f.isEmpty then none
  else some (100 * ((f.countP (fun r => decide (g r = some 1)) : Rat) / (f.length : Rat)))

/-- Line 129: the electricity percentage KPI. -/
def elecPct (f : List Row) : Option Rat := pctEq1 Row.electricity_availability f

/-- Line 130: the internet percentage KPI. -/
def internetPct (f : List Row) : Option Rat := pctEq1 Row.internet f

/-- Line 131: the library percentage KPI. -/
def libraryPct (f : List Row) : Option Rat := pctEq1 Row.library_availability f

/-- Line 132: the playground percentage KPI. -/
def playgroundPct (f : List Row) : Option Rat := pctEq1 Row.playground_available f

/-- Line 133: the rainwater-harvesting percentage KPI. -/
def rainwaterPct (f : List Row) : Option Rat := pctEq1 Row.rain_water_harvesting f

/-- Line 134: `f['toilet_functionality_ratio'].mean() * 100` — the mean
skips `NaN` entries and is `NaN` on an empty or all-`NaN` series. -/
def toiletPct (f : List Row) : Option Rat :=
  let vals := f.filterMap toilet_functionality
  if vals.isEmpty then none else some (100 * (vals.sum / (vals.length : Rat)))

/-- Line 135: `f['cwsn_ready'].mean() * 100` over the boolean column. -/
def cwsnPct (f : List Row) : Option Rat :=
  if f.isEmpty then none
  else some (100 * ((f.countP cwsn_ready : Rat) / (f.length : Rat)))

/-- Mean of `infra_score` over one district group. -/
def meanInfra (g : List Row) : Rat :=
  (((g.map infra_score).sum : Int) : Rat) / (g.length : Rat)

/-- Insertion step of a descending sort on the group means. -/
def insertDesc (x : Val × Rat) : List (Val × Rat) → List (Val × Rat)
  | [] => [x]
  | y :: ys => if y.2 < x.2 then x :: y :: ys else y :: insertDesc x ys

/-- `sort_values(ascending=False)` on the district means. -/
def sortDesc (l : List (Val × Rat)) : List (Val × Rat) := l.foldr insertDesc []

/-- Lines 142-148: `f.groupby("district")["infra_score"].mean()`
(pandas groupby drops `NaN` keys), sorted descending, `.head(10)`. -/
def topDistricts (f : List Row) : List (Val × Rat) :=
  (sortDesc (((f.filterMap Row.district).dedup).map
    (fun d => (d, meanInfra (f.filter (fun r => decide (r.district = some d))))))).take 10

/-! ## CSV export (`to_csv`, lines 196-198) and reload (`pd.read_csv`)

The byte stream is modelled as a `List Char` (UTF-8 text).  A cell is
rendered the way pandas renders it: `NaN` as the empty field, integers
in decimal (with a leading `-` for negatives), floats as decimal digits
with a `.` separating the `k` fractional digits, strings verbatim.
Reloading splits on newlines, drops blank lines and the header, splits
each line on commas and re-infers each field the way `read_csv` does:
empty field to `NaN`, an all-digit field (with optional sign) to an
integer, a digits-dot-digits field to a float, anything else to a
string. -/

/-- Numeric value of a decimal digit character. -/
def digitVal (c : Char) : Nat := c.toNat - '0'.toNat

/-- Decimal rendering of a natural number. -/
def natChars (n : Nat) : List Char :=
  if n = 0 then ['0'] else ((Nat.digits 10 n).map Nat.digitChar).reverse

/-- Parse an all-digit field into a natural number. -/
def parseNat (cs : List Char) : Option Nat :=
  if cs = [] then none
  else if cs.all Char.isDigit then some (Nat.ofDigits 10 ((cs.map digitVal).reverse))
  else none

/-- Decimal rendering of an integer. -/
def intChars (i : Int) : List Char :=
  if i < 0 then '-' :: natChars i.natAbs else natChars i.natAbs

/-- Parse an optionally signed all-digit field into an integer. -/
def parseInt (cs : List Char) : Option Int :=
  if cs.headD ' ' = '-' then (parseNat cs.tail).map (fun (n : Nat) => -(n : Int))
  else (parseNat cs).map (fun (n : Nat) => (n : Int))

/-- The digit string of `n` left-padded with zeros to at least `k + 1`
digits, so that a decimal point can be placed before the last `k`. -/
def padDigits (n k : Nat) : List Char :=
  List.replicate (k + 1 - (natChars n).length) '0' ++ natChars n

/-- Decimal rendering of the non-negative scaled value `n / 10 ^ k`:
all digits of `n`, with `.` before the last `k` of them. -/
def decCharsAux (n k : Nat) : List Char :=
  (padDigits n k).take ((padDigits n k).length - k) ++
    '.' :: (padDigits n k).drop ((padDigits n k).length - k)

/-- Decimal rendering of the scaled value `m / 10 ^ k`. -/
def decChars (m : Int) (k : Nat) : List Char :=
  if m < 0 then '-' :: decCharsAux m.natAbs k else decCharsAux m.natAbs k

/-- Parse an unsigned decimal-point field: digits, `.`, digits; the
result is the mantissa and the number of fractional digits. -/
def parseDecAux (cs : List Char) : Option (Nat × Nat) :=
  if (cs.dropWhile (fun c => c != '.')).headD ' ' = '.' then
    (parseNat (cs.takeWhile (fun c => c != '.') ++
        (cs.dropWhile (fun c => c != '.')).tail)).map
      (fun n => (n, (cs.dropWhile (fun c => c != '.')).tail.length))
  else none

/-- Parse an optionally signed decimal-point field. -/
def parseDec (cs : List Char) : Option (Int × Nat) :=
  if cs.headD ' ' = '-' then (parseDecAux cs.tail).map (fun p => (-(p.1 : Int), p.2))
  else (parseDecAux cs).map (fun p => ((p.1 : Int), p.2))

/-- One serialized field of the CSV: missing, integer, scaled decimal
(`dec m k` prints as `m / 10 ^ k` with `k` fractional digits), or raw
string. -/
inductive Cell where
  | na : Cell
  | int : Int → Cell
  | dec : Int → Nat → Cell
  | str : List Char → Cell
deriving DecidableEq

/-- Render one field the way `to_csv` does. -/
def renderCell : Cell → List Char
  | .na => []
  | .int i => intChars i
  | .dec m k => decChars m k
  | .str s => s

/-- Re-infer one field the way `read_csv` does. -/
def parseCell (cs : List Char) : Cell :=
  if cs = [] then .na
  else
    match parseInt cs with
    | some i => .int i
    | none =>
      match parseDec cs with
      | some (m, k) => .dec m k
      | none => .str cs

/-- A cell the plain (unquoted) CSV writer round-trips: numeric and
missing cells always; a string cell when it is nonempty, not shaped like
a number, and free of separators. -/
def cellSafeB : Cell → Bool
  | .str s => !(decide (s = [])) && (parseInt s).isNone && (parseDec s).isNone &&
      decide (',' ∉ s) && decide ('\n' ∉ s)
  | _ => true

/-- Join fields with a separator (no trailing separator). -/
def joinSep (sep : Char) : List (List Char) → List Char
  | [] => []
  | [x] => x
  | x :: y :: ys => x ++ sep :: joinSep sep (y :: ys)

/-- Join lines, terminating each with the separator, as `to_csv` ends
every record with a newline. -/
def linesJoin (sep : Char) : List (List Char) → List Char
  | [] => []
  | l :: ls => l ++ sep :: linesJoin sep ls

/-- Split a character stream at every occurrence of the separator. -/
def splitChar (sep : Char) : List Char → List (List Char)
  | [] => [[]]
  | c :: cs =>
    if c = sep then [] :: splitChar sep cs
    else
      match splitChar sep cs with
      | [] => [[c]]
      | g :: gs => (c :: g) :: gs

/-- The header row: the raw columns in source order followed by the
three derived columns appended by `load_data`. -/
def csvHeader : List (List Char) :=
  ["state".data, "district".data, "block".data, "rural_urban".data,
   "school_category".data, "school_type".data, "managment".data,
   "resi_school".data, "minority_school".data, "lowclass".data,
   "highclass".data, "electricity_availability".data, "internet".data,
   "library_availability".data, "playground_available".data,
   "rain_water_harvesting".data, "boundary_wall".data,
   "availability_ramps".data, "availability_of_handrails".data,
   "spl_educator_yn".data, "total_boys_func_toilet".data,
   "total_girls_func_toilet".data, "total_boys_toilet".data,
   "total_girls_toilet".data, "func_boys_cwsn_friendly".data,
   "func_girls_cwsn_friendly".data, "building_status".data,
   "projector".data, "infra_score".data,
   "toilet_functionality_ratio".data, "cwsn_ready".data]

/-- Render one record: fields joined by commas. -/
def renderLine (cs : List Cell) : List Char := joinSep ',' (cs.map renderCell)

/-- `df.to_csv(index=False).encode("utf-8")`: header line then one line
per row, each terminated by a newline. -/
def exportCSV (rows : List (List Cell)) : List Char :=
  linesJoin '\n' (joinSep ',' csvHeader :: rows.map renderLine)

/-- `pd.read_csv` on the exported stream: split into lines, skip blank
lines, drop the header, split each record on commas and re-infer each
field. -/
def reloadCSV (cs : List Char) : List (List Cell) :=
  (((splitChar '\n' cs).filter (fun l => !l.isEmpty)).drop 1).map
    (fun l => (splitChar ',' l).map parseCell)

/-- Smallest exponent (bounded search) making the denominator divide a
power of ten, i.e. making the rational exactly representable as a
finite decimal — as every float64 value is. -/
def decExp (d : Nat) : Option Nat :=
  (List.range 400).find? (fun k => 10 ^ k % d == 0)

/-- Decimal cell for a rational ratio value: mantissa and fractional
width (at least one fractional digit, as float printing always shows
one). -/
def qToDec (q : Rat) : Cell :=
  match decExp q.den with
  | some k => Cell.dec (q.num * ((10 ^ (max k 1) / q.den : Nat) : Int)) (max k 1)
  | none => Cell.str ['?']

/-- Serialize an optional categorical cell. -/
def valCell : Option Val → Cell
  | none => .na
  | some (.int n) => .int n
  | some (.str s) => .str s

/-- Serialize an optional integer cell. -/
def intCell : Option Int → Cell
  | none => .na
  | some n => .int n

/-- Serialize the boolean `cwsn_ready` column the way pandas prints
`True` / `False`. -/
def boolCell : Bool → Cell
  | true => .str "True".data
  | false => .str "False".data

/-- Serialize the optional ratio column. -/
def ratioCell : Option Rat → Cell
  | none => .na
  | some q => qToDec q

/-- All 31 serialized fields of a row, raw columns in source order then
the three derived columns. -/
def rowCells (r : Row) : List Cell :=
  [valCell r.state, valCell r.district, valCell r.block,
   intCell r.rural_urban, valCell r.school_category, valCell r.school_type,
   valCell r.managment, intCell r.resi_school, intCell r.minority_school,
   intCell r.lowclass, intCell r.highclass,
   intCell r.electricity_availability, intCell r.internet,
   intCell r.library_availability, intCell r.playground_available,
   intCell r.rain_water_harvesting, valCell r.boundary_wall,
   intCell r.availability_ramps, intCell r.availability_of_handrails,
   intCell r.spl_educator_yn, intCell r.total_boys_func_toilet,
   intCell r.total_girls_func_toilet, intCell r.total_boys_toilet,
   intCell r.total_girls_toilet, intCell r.func_boys_cwsn_friendly,
   intCell r.func_girls_cwsn_friendly, valCell r.building_status,
   intCell r.projector, Cell.int (infra_score r),
   ratioCell (toilet_functionality r), boolCell (cwsn_ready r)]

/-! ## Concrete rows and filter states used by witnesses and
counterexamples -/

/-- A row with every cell missing. -/
def baseRow : Row :=
  { state := none, district := none, block := none, rural_urban := none,
    school_category := none, school_type := none, managment := none,
    resi_school := none, minority_school := none, lowclass := none,
    highclass := none, electricity_availability := none, internet := none,
    library_availability := none, playground_available := none,
    rain_water_harvesting := none, boundary_wall := none,
    availability_ramps := none, availability_of_handrails := none,
    spl_educator_yn := none, total_boys_func_toilet := none,
    total_girls_func_toilet := none, total_boys_toilet := none,
    total_girls_toilet := none, func_boys_cwsn_friendly := none,
    func_girls_cwsn_friendly := none, building_status := none,
    projector := none }

/-- The raw codes admitted by the survey coding convention for a binary
facility column (`1`, `2`, the electricity-specific `3`, or missing). -/
def codeOK : List (Option Int) := [some 1, some 2, some 3, none]

/-- The indicator the spec describes: 1 when the raw cell is code 1,
otherwise 0. -/
def bin1 (c : Option Int) : Int := if c = some 1 then 1 else 0

/-- A filter state whose only non-absent entry is an explicitly empty
membership selection on the `state` column. -/
def emptySelFilters : Filters := { absentFilters with states := some [] }

/-- `F` with every membership selection made explicitly empty. -/
def emptiedSel (F : Filters) : Filters :=
  { F with
    states := some [], districts := some [], blocks := some [],
    school_cat := some [], school_type := some [], management := some [],
    boundary_sel := some [] }

/-- `F` with every membership selection made absent. -/
def clearedSel (F : Filters) : Filters :=
  { F with
    states := none, districts := none, blocks := none,
    school_cat := none, school_type := none, management := none,
    boundary_sel := none }

/-- Concrete row for the C2 witness: electricity 1, internet 2,
library 3, playground missing. -/
def rowC2 : Row :=
  { baseRow with
    electricity_availability := some 1, internet := some 2,
    library_availability := some 3 }

/-- Concrete row for the C3 witness: one functional toilet reported but
zero total toilets. -/
def rowC3 : Row :=
  { baseRow with
    total_boys_func_toilet := some 1,
    total_girls_func_toilet := some 0, total_boys_toilet := some 0,
    total_girls_toilet := some 0 }

/-- Row with the plain "No" electricity code 2. -/
def rowElec2 : Row := { baseRow with electricity_availability := some 2 }

/-- Row with the electricity-specific "not functional" code 3. -/
def rowElec3 : Row := { baseRow with electricity_availability := some 3 }

/-- The filter state produced by choosing "No/Not functional" in the
electricity selectbox: `elec_map` maps that label to the single code 2. -/
def elecNoFilters : Filters := { absentFilters with elec := some 2 }

/-- Row with missing ramps but a functional CWSN toilet. -/
def rowC6a : Row := { baseRow with func_boys_cwsn_friendly := some 1 }

/-- Row with missing electricity but the other three facilities code 1. -/
def rowC6b : Row :=
  { baseRow with
    internet := some 1, library_availability := some 1,
    playground_available := some 1 }

/-- A filter state demanding electricity code 1. -/
def filtersC8 : Filters := { absentFilters with elec := some 1 }

/-- Concrete row for the C9 witness: string, integer and missing cells
(zero total toilets, so the ratio column is the `NaN` sentinel). -/
def rowC9 : Row :=
  { baseRow with
    state := some (Val.str ['A', 'P']), district := some (Val.str ['X']),
    electricity_availability := some 1, rural_urban := some 1,
    projector := some 12 }

/-! ## Helper lemmas -/

lemma mfilter_sublist (b : Bool) (p : Row → Bool) (l : List Row) :
    (mfilter b p l).Sublist l := by
  unfold mfilter
  split
  · exact List.filter_sublist l
  · exact List.Sublist.refl l

lemma replaceNo_eq_bin1 (c : Option Int) (h : c ∈ codeOK) :
    (replaceNo c).getD 0 = bin1 c := by
  simp only [codeOK, List.mem_cons, List.not_mem_nil, or_false] at h
  rcases h with rfl | rfl | rfl | rfl <;> rfl

lemma bin1_nonneg (c : Option Int) : 0 ≤ bin1 c := by
  unfold bin1; split <;> norm_num

lemma bin1_le_one (c : Option Int) : bin1 c ≤ 1 := by
  unfold bin1; split <;> norm_num

/-! ### Digit-level round-trip lemmas -/

lemma digitChar_isDigit {d : Nat} (h : d < 10) : (Nat.digitChar d).isDigit = true := by
  interval_cases d <;> decide

lemma digitVal_digitChar {d : Nat} (h : d < 10) : digitVal (Nat.digitChar d) = d := by
  interval_cases d <;> decide

lemma natChars_ne_nil (n : Nat) : natChars n ≠ [] := by
  unfold natChars
  split
  · simp
  · rename_i hn
    simp only [ne_eq, List.reverse_eq_nil_iff, List.map_eq_nil_iff]
    exact Nat.digits_ne_nil_iff_ne_zero.mpr hn

lemma natChars_all_digit (n : Nat) : ∀ c ∈ natChars n, c.isDigit = true := by
  intro c hc
  unfold natChars at hc
  split at hc
  · simp only [List.mem_singleton] at hc
    subst hc; decide
  · rw [List.mem_reverse, List.mem_map] at hc
    obtain ⟨d, hd, rfl⟩ := hc
    exact digitChar_isDigit (Nat.digits_lt_base (by norm_num) hd)

lemma ofDigits_natChars (n : Nat) :
    Nat.ofDigits 10 (((natChars n).map digitVal).reverse) = n := by
  by_cases hn : n = 0
  · subst hn; decide
  · unfold natChars
    rw [if_neg hn]
    rw [List.map_reverse, List.reverse_reverse, List.map_map]
    have hcong : ∀ d ∈ Nat.digits 10 n, (digitVal ∘ Nat.digitChar) d = id d := by
      intro d hd
      exact digitVal_digitChar (Nat.digits_lt_base (by norm_num) hd)
    rw [List.map_congr_left hcong, List.map_id]
    exact Nat.ofDigits_digits 10 n

lemma ofDigits_replicate_zero (j : Nat) :
    Nat.ofDigits 10 (List.replicate j (0 : Nat)) = 0 := by
  induction j with
  | zero => rfl
  | succ j ih => simp [List.replicate_succ, Nat.ofDigits_cons, ih]

lemma parseNat_pad (j n : Nat) :
    parseNat (List.replicate j '0' ++ natChars n) = some n := by
  have hne : List.replicate j '0' ++ natChars n ≠ [] := by
    intro h
    exact natChars_ne_nil n (List.append_eq_nil.mp h).2
  have hall : (List.replicate j '0' ++ natChars n).all Char.isDigit = true := by
    rw [List.all_eq_true]
    intro c hc
    rcases List.mem_append.mp hc with h | h
    · rw [List.eq_of_mem_replicate h]; decide
    · exact natChars_all_digit n c h
  unfold parseNat
  rw [if_neg hne, if_pos hall]
  congr 1
  rw [List.map_append, List.reverse_append, List.map_replicate,
      show digitVal '0' = 0 from rfl, List.reverse_replicate,
      Nat.ofDigits_append, ofDigits_replicate_zero, ofDigits_natChars]
  simp

lemma parseNat_natChars (n : Nat) : parseNat (natChars n) = some n := by
  have h := parseNat_pad 0 n
  simpa using h

lemma isDigit_ne_marks {c : Char} (h : c.isDigit = true) :
    c ≠ '-' ∧ c ≠ '.' ∧ c ≠ ',' ∧ c ≠ '\n' := by
  refine ⟨?_, ?_, ?_, ?_⟩ <;> intro hc <;> subst hc <;> exact absurd h (by decide)

lemma parseInt_intChars (i : Int) : parseInt (intChars i) = some i := by
  rcases lt_or_le i 0 with hneg | hpos
  · unfold intChars
    rw [if_pos hneg]
    unfold parseInt
    rw [List.headD_cons, if_pos rfl, List.tail_cons, parseNat_natChars,
        Option.map_some']
    congr 1
    omega
  · unfold intChars
    rw [if_neg (not_lt.mpr hpos)]
    obtain ⟨c, cs, hcons⟩ : ∃ c cs, natChars i.natAbs = c :: cs := by
      cases h : natChars i.natAbs with
      | nil => exact absurd h (natChars_ne_nil _)
      | cons c cs => exact ⟨c, cs, rfl⟩
    have hdig := natChars_all_digit i.natAbs c (by
      rw [hcons]; exact List.mem_cons_self c cs)
    have hdash : c ≠ '-' := (isDigit_ne_marks hdig).1
    unfold parseInt
    rw [hcons, List.headD_cons, if_neg hdash, ← hcons, parseNat_natChars,
        Option.map_some']
    congr 1
    omega

lemma padDigits_len (n k : Nat) : k + 1 ≤ (padDigits n k).length := by
  unfold padDigits
  rw [List.length_append, List.length_replicate]
  omega

lemma padDigits_all_digit (n k : Nat) : ∀ c ∈ padDigits n k, c.isDigit = true := by
  intro c hc
  rcases List.mem_append.mp hc with h | h
  · rw [List.eq_of_mem_replicate h]; decide
  · exact natChars_all_digit n c h

lemma parseNat_padDigits (n k : Nat) : parseNat (padDigits n k) = some n :=
  parseNat_pad _ n

lemma mem_take_padDigits {n k : Nat} {c : Char}
    (hc : c ∈ (padDigits n k).take ((padDigits n k).length - k)) :
    c ∈ padDigits n k := by
  have h := List.take_append_drop ((padDigits n k).length - k) (padDigits n k)
  rw [← h]
  exact List.mem_append_left _ hc

lemma mem_drop_padDigits {n k : Nat} {c : Char}
    (hc : c ∈ (padDigits n k).drop ((padDigits n k).length - k)) :
    c ∈ padDigits n k := by
  have h := List.take_append_drop ((padDigits n k).length - k) (padDigits n k)
  rw [← h]
  exact List.mem_append_right _ hc

lemma takeWhile_no_dot (A B : List Char) (h : ∀ c ∈ A, c ≠ '.') :
    (A ++ '.' :: B).takeWhile (fun c => c != '.') = A := by
  induction A with
  | nil =>
    rw [List.nil_append, List.takeWhile_cons]
    simp
  | cons a A ih =>
    have ha : a ≠ '.' := h a (List.mem_cons_self a A)
    rw [List.cons_append, List.takeWhile_cons, if_pos (by simpa using ha)]
    rw [ih (fun c hc => h c (List.mem_cons_of_mem a hc))]

lemma dropWhile_no_dot (A B : List Char) (h : ∀ c ∈ A, c ≠ '.') :
    (A ++ '.' :: B).dropWhile (fun c => c != '.') = '.' :: B := by
  induction A with
  | nil =>
    rw [List.nil_append, List.dropWhile_cons]
    simp
  | cons a A ih =>
    have ha : a ≠ '.' := h a (List.mem_cons_self a A)
    rw [List.cons_append, List.dropWhile_cons, if_pos (by simpa using ha)]
    exact ih (fun c hc => h c (List.mem_cons_of_mem a hc))

lemma parseDecAux_decCharsAux (n k : Nat) :
    parseDecAux (decCharsAux n k) = some (n, k) := by
  have hlen := padDigits_len n k
  have hnodot : ∀ c ∈ (padDigits n k).take ((padDigits n k).length - k), c ≠ '.' :=
    fun c hc => (isDigit_ne_marks (padDigits_all_digit n k c (mem_take_padDigits hc))).2.1
  have hdroplen : ((padDigits n k).drop ((padDigits n k).length - k)).length = k := by
    rw [List.length_drop]
    omega
  unfold parseDecAux decCharsAux
  rw [takeWhile_no_dot _ _ hnodot, dropWhile_no_dot _ _ hnodot,
      List.headD_cons, if_pos rfl, List.tail_cons, List.take_append_drop,
      parseNat_padDigits, Option.map_some', hdroplen]

lemma decCharsAux_ne_nil (n k : Nat) : decCharsAux n k ≠ [] := by
  unfold decCharsAux
  intro h
  exact List.cons_ne_nil _ _ (List.append_eq_nil.mp h).2

lemma mem_decCharsAux {n k : Nat} {c : Char} (hc : c ∈ decCharsAux n k) :
    c.isDigit = true ∨ c = '.' := by
  unfold decCharsAux at hc
  rcases List.mem_append.mp hc with h | h
  · exact Or.inl (padDigits_all_digit n k c (mem_take_padDigits h))
  · rcases List.mem_cons.mp h with h | h
    · exact Or.inr h
    · exact Or.inl (padDigits_all_digit n k c (mem_drop_padDigits h))

lemma parseDec_decChars (m : Int) (k : Nat) : parseDec (decChars m k) = some (m, k) := by
  rcases lt_or_le m 0 with hneg | hpos
  · unfold decChars
    rw [if_pos hneg]
    unfold parseDec
    rw [List.headD_cons, if_pos rfl, List.tail_cons, parseDecAux_decCharsAux,
        Option.map_some']
    simp only [Option.some.injEq, Prod.mk.injEq]
    refine ⟨by omega, trivial⟩
  · unfold decChars
    rw [if_neg (not_lt.mpr hpos)]
    obtain ⟨c, cs, hcons⟩ : ∃ c cs, decCharsAux m.natAbs k = c :: cs := by
      cases h : decCharsAux m.natAbs k with
      | nil => exact absurd h (decCharsAux_ne_nil _ _)
      | cons c cs => exact ⟨c, cs, rfl⟩
    have hmem : c ∈ decCharsAux m.natAbs k := by
      rw [hcons]; exact List.mem_cons_self c cs
    have hdash : c ≠ '-' := by
      rcases mem_decCharsAux hmem with h | h
      · exact (isDigit_ne_marks h).1
      · rw [h]; decide
    unfold parseDec
    rw [hcons, List.headD_cons, if_neg hdash, ← hcons, parseDecAux_decCharsAux,
        Option.map_some']
    simp only [Option.some.injEq, Prod.mk.injEq]
    refine ⟨by omega, trivial⟩

lemma parseNat_dot (cs : List Char) (h : '.' ∈ cs) : parseNat cs = none := by
  have hne : cs ≠ [] := List.ne_nil_of_mem h
  have hall : cs.all Char.isDigit = false := by
    cases hb : cs.all Char.isDigit
    · rfl
    · exact absurd (List.all_eq_true.mp hb '.' h) (by decide)
  unfold parseNat
  rw [if_neg hne, hall]
  simp

lemma parseInt_dot (cs : List Char) (h : '.' ∈ cs) : parseInt cs = none := by
  cases cs with
  | nil => exact absurd h (List.not_mem_nil _)
  | cons c rest =>
    by_cases hc : c = '-'
    · subst hc
      unfold parseInt
      rw [List.headD_cons, if_pos rfl, List.tail_cons]
      have hmem : '.' ∈ rest := by
        rcases List.mem_cons.mp h with h' | h'
        · exact absurd h'.symm (by decide)
        · exact h'
      rw [parseNat_dot _ hmem]
      rfl
    · unfold parseInt
      rw [List.headD_cons, if_neg hc, parseNat_dot _ h]
      rfl

lemma dot_mem_decCharsAux (n k : Nat) : '.' ∈ decCharsAux n k := by
  unfold decCharsAux
  exact List.mem_append_right _ (List.mem_cons_self _ _)

lemma parseInt_decChars (m : Int) (k : Nat) : parseInt (decChars m k) = none := by
  unfold decChars
  split
  · unfold parseInt
    rw [List.headD_cons, if_pos rfl, List.tail_cons,
        parseNat_dot _ (dot_mem_decCharsAux _ _)]
    rfl
  · exact parseInt_dot _ (dot_mem_decCharsAux _ _)

lemma intChars_ne_nil (i : Int) : intChars i ≠ [] := by
  unfold intChars
  split
  · simp
  · exact natChars_ne_nil _

lemma decChars_ne_nil (m : Int) (k : Nat) : decChars m k ≠ [] := by
  unfold decChars
  split
  · simp
  · exact decCharsAux_ne_nil _ _

/-! ### Cell- and line-level round trip -/

lemma cellSafe_str {s : List Char} (h : cellSafeB (Cell.str s) = true) :
    s ≠ [] ∧ parseInt s = none ∧ parseDec s = none ∧ ',' ∉ s ∧ '\n' ∉ s := by
  unfold cellSafeB at h
  simp only [Bool.and_eq_true, Bool.not_eq_true', decide_eq_false_iff_not,
    decide_eq_true_eq, Option.isNone_iff_eq_none] at h
  exact ⟨h.1.1.1.1, h.1.1.1.2, h.1.1.2, h.1.2, h.2⟩

lemma parseCell_renderCell (c : Cell) (h : cellSafeB c = true) :
    parseCell (renderCell c) = c := by
  cases c with
  | na => rfl
  | int i =>
    show parseCell (intChars i) = Cell.int i
    unfold parseCell
    rw [if_neg (intChars_ne_nil i), parseInt_intChars]
  | dec m k =>
    show parseCell (decChars m k) = Cell.dec m k
    unfold parseCell
    rw [if_neg (decChars_ne_nil m k), parseInt_decChars, parseDec_decChars]
  | str s =>
    obtain ⟨h1, h2, h3, _, _⟩ := cellSafe_str h
    show parseCell s = Cell.str s
    unfold parseCell
    rw [if_neg h1, h2, h3]

lemma mem_intChars {i : Int} {c : Char} (h : c ∈ intChars i) :
    c.isDigit = true ∨ c = '-' := by
  unfold intChars at h
  split at h
  · rcases List.mem_cons.mp h with h | h
    · exact Or.inr h
    · exact Or.inl (natChars_all_digit _ _ h)
  · exact Or.inl (natChars_all_digit _ _ h)

lemma mem_decChars {m : Int} {k : Nat} {c : Char} (h : c ∈ decChars m k) :
    c.isDigit = true ∨ c = '-' ∨ c = '.' := by
  unfold decChars at h
  split at h
  · rcases List.mem_cons.mp h with h | h
    · exact Or.inr (Or.inl h)
    · rcases mem_decCharsAux h with h | h
      · exact Or.inl h
      · exact Or.inr (Or.inr h)
  · rcases mem_decCharsAux h with h | h
    · exact Or.inl h
    · exact Or.inr (Or.inr h)

lemma renderCell_no_sep (c : Cell) (h : cellSafeB c = true) :
    ',' ∉ renderCell c ∧ '\n' ∉ renderCell c := by
  cases c with
  | na => exact ⟨List.not_mem_nil _, List.not_mem_nil _⟩
  | int i =>
    constructor <;> intro hm <;>
      rcases mem_intChars hm with hd | hd <;>
        exact absurd hd (by decide)
  | dec m k =>
    constructor <;> intro hm <;>
      rcases mem_decChars hm with hd | hd | hd <;>
        exact absurd hd (by decide)
  | str s =>
    obtain ⟨_, _, _, h4, h5⟩ := cellSafe_str h
    exact ⟨h4, h5⟩

lemma splitChar_ne_nil (sep : Char) (cs : List Char) : splitChar sep cs ≠ [] := by
  induction cs with
  | nil => simp [splitChar]
  | cons c cs ih =>
    unfold splitChar
    split
    · simp
    · cases h : splitChar sep cs with
      | nil => exact absurd h ih
      | cons g gs => simp

lemma splitChar_sep_cons (sep : Char) (a b : List Char) (h : sep ∉ a) :
    splitChar sep (a ++ sep :: b) = a :: splitChar sep b := by
  induction a with
  | nil =>
    show splitChar sep (sep :: b) = [] :: splitChar sep b
    simp [splitChar]
  | cons c a ih =>
    have hc : c ≠ sep := fun hcs => h (hcs ▸ List.mem_cons_self c a)
    show splitChar sep (c :: (a ++ sep :: b)) = (c :: a) :: splitChar sep b
    simp only [splitChar]
    rw [if_neg hc, ih (fun hm => h (List.mem_cons_of_mem c hm))]

lemma splitChar_no_sep (sep : Char) (a : List Char) (h : sep ∉ a) :
    splitChar sep a = [a] := by
  induction a with
  | nil => rfl
  | cons c a ih =>
    have hc : c ≠ sep := fun hcs => h (hcs ▸ List.mem_cons_self c a)
    simp only [splitChar]
    rw [if_neg hc, ih (fun hm => h (List.mem_cons_of_mem c hm))]

lemma splitChar_linesJoin (sep : Char) (ls : List (List Char))
    (h : ∀ l ∈ ls, sep ∉ l) :
    splitChar sep (linesJoin sep ls) = ls ++ [[]] := by
  induction ls with
  | nil => rfl
  | cons l ls ih =>
    show splitChar sep (l ++ sep :: linesJoin sep ls) = (l :: ls) ++ [[]]
    rw [splitChar_sep_cons sep l _ (h l (List.mem_cons_self _ _)),
        ih (fun x hx => h x (List.mem_cons_of_mem _ hx))]
    rfl

lemma splitChar_joinSep (sep : Char) :
    ∀ (xss : List (List Char)), xss ≠ [] → (∀ x ∈ xss, sep ∉ x) →
      splitChar sep (joinSep sep xss) = xss
  | [], hne, _ => absurd rfl hne
  | [x], _, h => splitChar_no_sep sep x (h x (List.mem_cons_self _ _))
  | x :: y :: ys, _, h => by
    show splitChar sep (x ++ sep :: joinSep sep (y :: ys)) = x :: y :: ys
    rw [splitChar_sep_cons sep x _ (h x (List.mem_cons_self _ _)),
        splitChar_joinSep sep (y :: ys) (List.cons_ne_nil _ _)
          (fun z hz => h z (List.mem_cons_of_mem _ hz))]

lemma mem_joinSep (sep : Char) :
    ∀ (xss : List (List Char)) (c : Char), c ∈ joinSep sep xss →
      c = sep ∨ ∃ x ∈ xss, c ∈ x
  | [], c, h => absurd h (List.not_mem_nil c)
  | [x], c, h => Or.inr ⟨x, List.mem_cons_self _ _, h⟩
  | x :: y :: ys, c, h => by
    have h' : c ∈ x ++ sep :: joinSep sep (y :: ys) := h
    rcases List.mem_append.mp h' with h1 | h1
    · exact Or.inr ⟨x, List.mem_cons_self _ _, h1⟩
    · rcases List.mem_cons.mp h1 with h2 | h2
      · exact Or.inl h2
      · rcases mem_joinSep sep (y :: ys) c h2 with h3 | ⟨z, hz, hcz⟩
        · exact Or.inl h3
        · exact Or.inr ⟨z, List.mem_cons_of_mem _ hz, hcz⟩

lemma joinSep_two_ne_nil (sep : Char) (x y : List Char) (ys : List (List Char)) :
    joinSep sep (x :: y :: ys) ≠ [] := by
  show x ++ sep :: joinSep sep (y :: ys) ≠ []
  simp

lemma renderLine_ne_nil (r : List Cell) (h2 : 2 ≤ r.length) : renderLine r ≠ [] := by
  cases r with
  | nil => simp at h2
  | cons c1 r1 =>
    cases r1 with
    | nil => simp at h2
    | cons c2 r2 =>
      show joinSep ',' (renderCell c1 :: renderCell c2 :: r2.map renderCell) ≠ []
      exact joinSep_two_ne_nil _ _ _ _

lemma renderLine_no_nl (r : List Cell) (hs : ∀ c ∈ r, cellSafeB c = true) :
    '\n' ∉ renderLine r := by
  intro hm
  unfold renderLine at hm
  rcases mem_joinSep ',' (r.map renderCell) '\n' hm with h | ⟨x, hx, hcx⟩
  · exact absurd h (by decide)
  · rw [List.mem_map] at hx
    obtain ⟨cell, hcell, rfl⟩ := hx
    exact (renderCell_no_sep cell (hs cell hcell)).2 hcx

lemma parseLine_renderLine (r : List Cell) (h2 : 2 ≤ r.length)
    (hs : ∀ c ∈ r, cellSafeB c = true) :
    (splitChar ',' (renderLine r)).map parseCell = r := by
  have hrne : r ≠ [] := by
    intro hr
    rw [hr] at h2
    simp at h2
  have hne : r.map renderCell ≠ [] := by
    intro hh
    exact hrne (List.map_eq_nil_iff.mp hh)
  have hnosep : ∀ x ∈ r.map renderCell, ',' ∉ x := by
    intro x hx
    rw [List.mem_map] at hx
    obtain ⟨cell, hcell, rfl⟩ := hx
    exact (renderCell_no_sep cell (hs cell hcell)).1
  unfold renderLine
  rw [splitChar_joinSep ',' (r.map renderCell) hne hnosep, List.map_map]
  have hid : ∀ cell ∈ r, (parseCell ∘ renderCell) cell = id cell := by
    intro cell hc
    exact parseCell_renderCell cell (hs cell hc)
  rw [List.map_congr_left hid, List.map_id]

lemma reload_export (rows : List (List Cell))
    (h : ∀ r ∈ rows, 2 ≤ r.length ∧ ∀ c ∈ r, cellSafeB c = true) :
    reloadCSV (exportCSV rows) = rows := by
  have hhdr_nl : '\n' ∉ joinSep ',' csvHeader := by
    set_option maxRecDepth 20000 in decide
  have hhdr_ne : joinSep ',' csvHeader ≠ [] := by
    set_option maxRecDepth 20000 in decide
  have hlines_nl : ∀ l ∈ (joinSep ',' csvHeader :: rows.map renderLine), '\n' ∉ l := by
    intro l hl
    rcases List.mem_cons.mp hl with rfl | hl
    · exact hhdr_nl
    · rw [List.mem_map] at hl
      obtain ⟨r, hr, rfl⟩ := hl
      exact renderLine_no_nl r (h r hr).2
  unfold reloadCSV exportCSV
  rw [splitChar_linesJoin '\n' _ hlines_nl]
  have hfil : ((joinSep ',' csvHeader :: rows.map renderLine) ++ [[]]).filter
      (fun l => !l.isEmpty) = joinSep ',' csvHeader :: rows.map renderLine := by
    rw [List.filter_append, show (([[]] : List (List Char)).filter
        (fun l => !l.isEmpty)) = [] from rfl, List.append_nil,
      List.filter_eq_self]
    intro a ha
    rcases List.mem_cons.mp ha with rfl | ha
    · cases hh : joinSep ',' csvHeader with
      | nil => exact absurd hh hhdr_ne
      | cons u us => rfl
    · rw [List.mem_map] at ha
      obtain ⟨r, hr, rfl⟩ := ha
      cases hl : renderLine r with
      | nil => exact absurd hl (renderLine_ne_nil r (h r hr).1)
      | cons u us => rfl
  rw [hfil]
  simp only [List.drop_one, List.tail_cons, List.map_map]
  have hrt : ∀ r ∈ rows,
      ((fun l => (splitChar ',' l).map parseCell) ∘ renderLine) r = id r := by
    intro r hr
    exact parseLine_renderLine r (h r hr).1 (h r hr).2
  rw [List.map_congr_left hrt, List.map_id]

lemma qToDec_represents (q : Rat) (k0 : Nat) (hk : decExp q.den = some k0) :
    ∃ m k, qToDec q = Cell.dec m k ∧ (m : Rat) / 10 ^ k = q := by
  have hdvd0 : q.den ∣ 10 ^ k0 := by
    have hfind := List.find?_some hk
    have h' : 10 ^ k0 % q.den = 0 := by simpa using hfind
    exact Nat.dvd_of_mod_eq_zero h'
  have hdvd : q.den ∣ 10 ^ (max k0 1) :=
    hdvd0.trans (pow_dvd_pow 10 (le_max_left k0 1))
  refine ⟨q.num * ((10 ^ (max k0 1) / q.den : Nat) : Int), max k0 1, ?_, ?_⟩
  · unfold qToDec
    rw [hk]
  · have hq : (10 ^ (max k0 1) / q.den : Nat) * q.den = 10 ^ (max k0 1) :=
      Nat.div_mul_cancel hdvd
    have hden : (q.den : Rat) ≠ 0 := Nat.cast_ne_zero.mpr q.den_nz
    have h10 : ((10 : Rat)) ^ (max k0 1) ≠ 0 := by positivity
    rw [div_eq_iff h10]
    have ht : ((10 ^ (max k0 1) / q.den : Nat) : Rat) =
        (10 : Rat) ^ (max k0 1) / (q.den : Rat) := by
      rw [eq_div_iff hden]
      exact_mod_cast congrArg (fun x : Nat => (x : Rat)) hq
    rw [Int.cast_mul, Int.cast_natCast, ht]
    calc (q.num : Rat) * ((10 : Rat) ^ (max k0 1) / (q.den : Rat))
        = ((q.num : Rat) / (q.den : Rat)) * (10 : Rat) ^ (max k0 1) := by ring
      _ = q * (10 : Rat) ^ (max k0 1) := by rw [Rat.num_div_den]

/-! ## Claim theorems -/

/-- Claim C7: applying the filter state in which every predicate is
absent (no membership, equality, or range restriction set) returns the
dataset unchanged, for all rows, including rows with missing values in
filterable columns such as `lowclass` and `highclass` (no guard fires,
so no row — missing-valued or not — is touched). -/
theorem C7_absent_filters_identity (ds : List Row) :
    applyFilters ds absentFilters = ds := rfl

/-- Claim C10: every row of the filtered view is a row of the input
dataset with all its column values unchanged — the filter application is
a chain of guarded selections, so the output is a sublist (hence a
sub-multiset) of the input. -/
theorem C10_filtered_view_sublist (ds : List Row) (F : Filters) :
    (applyFilters ds F).Sublist ds := by
  unfold applyFilters
  iterate 19 refine (mfilter_sublist _ _ _).trans ?_
  exact List.Sublist.refl ds

/-- Claim C1 counterexample: on a one-row dataset, the filter state with
an explicitly empty membership selection for `state` returns the full
dataset, not the empty view the claim demands — `if states:` is falsy
for the empty Python list, so the predicate is skipped. -/
theorem C1_counterexample :
    applyFilters [baseRow] emptySelFilters = [baseRow] ∧
    ([baseRow] : List Row) ≠ [] :=
  ⟨rfl, List.cons_ne_nil _ _⟩

/-- Claim C1 (amended): an explicitly empty membership selection is
treated identically to an absent predicate — it imposes no restriction
on the column (the guard `if states:` is falsy for both `None` and the
empty list), so with all other predicates unchanged the two states give
the same view, and with all other predicates absent the view is the full
dataset, not the empty one. -/
theorem C1_empty_selection_is_no_restriction (ds : List Row) (F : Filters) :
    applyFilters ds (emptiedSel F) = applyFilters ds (clearedSel F) ∧
    applyFilters ds (emptiedSel absentFilters) = ds :=
  ⟨rfl, rfl⟩

/-- Claim C2: for every row whose four facility cells carry legal survey
codes (1, 2, the electricity-style 3, or missing), `infra_score` equals
the number of the four columns `electricity_availability`, `internet`,
`library_availability`, `playground_available` whose value is code 1
(any other code contributing 0), and it lies in `{0,1,2,3,4}`. -/
theorem C2_infra_score_counts_code1 (r : Row)
    (he : r.electricity_availability ∈ codeOK) (hi : r.internet ∈ codeOK)
    (hl : r.library_availability ∈ codeOK) (hp : r.playground_available ∈ codeOK) :
    infra_score r =
      bin1 r.electricity_availability + bin1 r.internet +
      bin1 r.library_availability + bin1 r.playground_available ∧
    0 ≤ infra_score r ∧ infra_score r ≤ 4 := by
  have hs : infra_score r =
      bin1 r.electricity_availability + bin1 r.internet +
      bin1 r.library_availability + bin1 r.playground_available := by
    unfold infra_score
    rw [replaceNo_eq_bin1 _ he, replaceNo_eq_bin1 _ hi,
        replaceNo_eq_bin1 _ hl, replaceNo_eq_bin1 _ hp]
  refine ⟨hs, ?_, ?_⟩
  · rw [hs]
    have b1 := bin1_nonneg r.electricity_availability
    have b2 := bin1_nonneg r.internet
    have b3 := bin1_nonneg r.library_availability
    have b4 := bin1_nonneg r.playground_available
    linarith
  · rw [hs]
    have b1 := bin1_le_one r.electricity_availability
    have b2 := bin1_le_one r.internet
    have b3 := bin1_le_one r.library_availability
    have b4 := bin1_le_one r.playground_available
    linarith

/-- Witness for claim C2 at a concrete row. -/
theorem C2_witness :
    rowC2.electricity_availability ∈ codeOK ∧ rowC2.internet ∈ codeOK ∧
    rowC2.library_availability ∈ codeOK ∧ rowC2.playground_available ∈ codeOK ∧
    (infra_score rowC2 =
       bin1 rowC2.electricity_availability + bin1 rowC2.internet +
       bin1 rowC2.library_availability + bin1 rowC2.playground_available ∧
     0 ≤ infra_score rowC2 ∧ infra_score rowC2 ≤ 4) :=
  ⟨by decide, by decide, by decide, by decide,
   C2_infra_score_counts_code1 rowC2 (by decide) (by decide) (by decide) (by decide)⟩

/-- Claim C3: for every row whose total toilet count
`total_boys_toilet + total_girls_toilet` is zero, the derived
functionality ratio is the missing-value sentinel `none`, never the
number 0 (the embedding is a total function, so no division-by-zero
exception can arise). -/
theorem C3_zero_toilets_gives_missing (r : Row)
    (h : optAdd r.total_boys_toilet r.total_girls_toilet = some 0) :
    toilet_functionality r = none ∧ toilet_functionality r ≠ some 0 := by
  have hnone : toilet_functionality r = none := by
    unfold toilet_functionality
    rw [h]
    cases hnum : optAdd r.total_boys_func_toilet r.total_girls_func_toilet with
    | none => rfl
    | some n => simp
  exact ⟨hnone, by rw [hnone]; exact fun hc => Option.noConfusion hc⟩

/-- Witness for claim C3 at a concrete row. -/
theorem C3_witness :
    optAdd rowC3.total_boys_toilet rowC3.total_girls_toilet = some 0 ∧
    (toilet_functionality rowC3 = none ∧ toilet_functionality rowC3 ≠ some 0) :=
  ⟨by decide, C3_zero_toilets_gives_missing rowC3 (by decide)⟩

/-- Claim C4: `cwsn_ready` is true exactly when `availability_ramps`
equals 1 and at least one of `func_boys_cwsn_friendly`,
`func_girls_cwsn_friendly` is present and positive; it is false for
every other combination, including rows where `availability_ramps` is
missing (`NaN == 1` is false in pandas). -/
theorem C4_cwsn_ready_iff (r : Row) :
    cwsn_ready r = true ↔
      (r.availability_ramps = some 1 ∧
        ((∃ n, r.func_boys_cwsn_friendly = some n ∧ 0 < n) ∨
         (∃ n, r.func_girls_cwsn_friendly = some n ∧ 0 < n))) := by
  unfold cwsn_ready optPos
  cases hb : r.func_boys_cwsn_friendly <;> cases hg : r.func_girls_cwsn_friendly <;>
    simp [hb, hg]

/-- Claim C5 (code bug evaluated): the infra-score binarization and the
electricity KPI do collapse code 3 to "No" (`replace({3: 0})` and
`== 1`), but the equality filter for the "No/Not functional" option
keeps only rows whose code is exactly 2 — the code-3 row is excluded,
contradicting the option's own label. -/
theorem C5_negative_option_misses_code3 :
    applyFilters [rowElec2, rowElec3] elecNoFilters = [rowElec2] ∧
    (replaceNo (some 3)).getD 0 = 0 ∧
    elecPct [rowElec3] = some 0 := by
  refine ⟨by decide, by decide, ?_⟩
  show elecPct [rowElec3] = some 0
  simp [elecPct, pctEq1, rowElec3, baseRow, List.countP, List.countP.go]

/-- Claim C6 counterexample: a missing raw value in a depended-on column
does not propagate to the derived field — with `availability_ramps`
missing, `cwsn_ready` is the boolean `false`, not a missing sentinel,
and with `electricity_availability` missing, `infra_score` is the
number 3 (the `skipna` sum of the remaining columns), not a missing
sentinel. -/
theorem C6_counterexample :
    cwsn_ready rowC6a = false ∧ infra_score rowC6b = 3 := by decide

/-- Claim C6 (amended): missing raw inputs never raise (all derived
computations are total), and `toilet_functionality_ratio` does propagate
missingness, but `infra_score` treats a missing component as
contributing 0 and `cwsn_ready` yields `false` — not the missing-value
sentinel — on missing inputs. -/
theorem C6_missingness_partial_propagation (r : Row)
    (h1 : r.availability_ramps = none) (h2 : r.total_boys_toilet = none)
    (h3 : r.electricity_availability = none) :
    cwsn_ready r = false ∧ toilet_functionality r = none ∧
    infra_score r = (replaceNo r.internet).getD 0 +
      (replaceNo r.library_availability).getD 0 +
      (replaceNo r.playground_available).getD 0 := by
  refine ⟨?_, ?_, ?_⟩
  · unfold cwsn_ready
    rw [h1]
    simp
  · unfold toilet_functionality
    have hden : optAdd r.total_boys_toilet r.total_girls_toilet = none := by
      rw [h2]; rfl
    rw [hden]
    cases hnum : optAdd r.total_boys_func_toilet r.total_girls_func_toilet <;> rfl
  · unfold infra_score
    rw [h3]
    simp [replaceNo]

/-- Witness for the amended claim C6 at a concrete row. -/
theorem C6_witness :
    baseRow.availability_ramps = none ∧ baseRow.total_boys_toilet = none ∧
    baseRow.electricity_availability = none ∧
    (cwsn_ready baseRow = false ∧ toilet_functionality baseRow = none ∧
     infra_score baseRow = (replaceNo baseRow.internet).getD 0 +
       (replaceNo baseRow.library_availability).getD 0 +
       (replaceNo baseRow.playground_available).getD 0) :=
  ⟨rfl, rfl, rfl, C6_missingness_partial_propagation baseRow rfl rfl rfl⟩

/-- Claim C8: whenever the filtered view has zero rows, the
total-schools count is 0, every percentage KPI is the `NaN` sentinel
`none` (no exception: every KPI is a total function), and the
top-10-districts aggregate is the empty ordered list. -/
theorem C8_empty_view_kpis (ds : List Row) (F : Filters)
    (h : applyFilters ds F = []) :
    totalSchools (applyFilters ds F) = 0 ∧
    elecPct (applyFilters ds F) = none ∧
    internetPct (applyFilters ds F) = none ∧
    libraryPct (applyFilters ds F) = none ∧
    playgroundPct (applyFilters ds F) = none ∧
    rainwaterPct (applyFilters ds F) = none ∧
    toiletPct (applyFilters ds F) = none ∧
    cwsnPct (applyFilters ds F) = none ∧
    topDistricts (applyFilters ds F) = [] := by
  rw [h]
  exact ⟨rfl, rfl, rfl, rfl, rfl, rfl, rfl, rfl, rfl⟩

/-- Witness for claim C8: a concrete filter state that empties a
concrete one-row dataset. -/
theorem C8_witness :
    applyFilters [rowElec2] filtersC8 = [] ∧
    (totalSchools (applyFilters [rowElec2] filtersC8) = 0 ∧
     elecPct (applyFilters [rowElec2] filtersC8) = none ∧
     internetPct (applyFilters [rowElec2] filtersC8) = none ∧
     libraryPct (applyFilters [rowElec2] filtersC8) = none ∧
     playgroundPct (applyFilters [rowElec2] filtersC8) = none ∧
     rainwaterPct (applyFilters [rowElec2] filtersC8) = none ∧
     toiletPct (applyFilters [rowElec2] filtersC8) = none ∧
     cwsnPct (applyFilters [rowElec2] filtersC8) = none ∧
     topDistricts (applyFilters [rowElec2] filtersC8) = []) :=
  ⟨by decide, C8_empty_view_kpis [rowElec2] filtersC8 (by decide)⟩

/-- Claim C9: serializing the filtered view to a UTF-8, comma-separated
stream with a header row and reloading it reproduces exactly the same
row set and cell values, every column in the source's original order;
moreover the decimal cell chosen for the float ratio column represents
its exact value whenever the value is a finite decimal (as every float64
is).  The hypothesis asks each serialized cell to be safe for the plain
(unquoted) writer: numeric and missing cells always are, string cells
must be nonempty, not number-shaped, and separator-free. -/
theorem C9_csv_round_trip (ds : List Row) (F : Filters)
    (hsafe : ∀ r ∈ applyFilters ds F, ∀ c ∈ rowCells r, cellSafeB c = true) :
    reloadCSV (exportCSV ((applyFilters ds F).map rowCells)) =
      (applyFilters ds F).map rowCells ∧
    (∀ r ∈ applyFilters ds F, ∀ q, toilet_functionality r = some q →
      ∀ k0, decExp q.den = some k0 →
        ∃ m k, ratioCell (toilet_functionality r) = Cell.dec m k ∧
          (m : Rat) / 10 ^ k = q) := by
  constructor
  · apply reload_export
    intro r hr
    rw [List.mem_map] at hr
    obtain ⟨row, hrow, rfl⟩ := hr
    refine ⟨?_, hsafe row hrow⟩
    have hlen : (rowCells row).length = 31 := rfl
    omega
  · intro r _ q hq k0 hk
    rw [hq]
    exact qToDec_represents q k0 hk

/-- Witness for claim C9: a concrete one-row dataset with string,
integer and missing cells, exported and reloaded via the theorem. -/
theorem C9_witness :
    (∀ r ∈ applyFilters [rowC9] absentFilters, ∀ c ∈ rowCells r,
       cellSafeB c = true) ∧
    (reloadCSV (exportCSV ((applyFilters [rowC9] absentFilters).map rowCells)) =
       (applyFilters [rowC9] absentFilters).map rowCells ∧
     (∀ r ∈ applyFilters [rowC9] absentFilters, ∀ q,
        toilet_functionality r = some q →
        ∀ k0, decExp q.den = some k0 →
          ∃ m k, ratioCell (toilet_functionality r) = Cell.dec m k ∧
            (m : Rat) / 10 ^ k = q)) :=
  ⟨by decide, C9_csv_round_trip [rowC9] absentFilters (by decide)⟩

end SchoolDash
